import Mathlib

/-!
Verification development for the payswarm.js secure-messaging core.

The development shallowly embeds the signing, verification, hybrid
decryption, key-resolution and protocol-orchestration code of the
repository.  Two revisions of the client library appear in the source:
the file lib/payswarm-client.js (embedded here with the suffix `client`)
and the revision in unnamed/part_004 (embedded with the suffix `p4`).
External collaborators (JSON-LD canonicalization and framing, RSA and
AES primitives, the network fetch, trust hooks) are passed in as
function parameters, exactly as the code receives them as injected
hooks or library calls.  Callback-style control flow is embedded with
Except; where a revision can return without ever invoking its callback,
the embedding uses Option, with none standing for a callback that is
never invoked.
-/

namespace Payswarm

/-- Error values surfaced through callbacks by the client code.  Each
constructor corresponds to one distinct new Error(...) site (or family
of sites) in the source; constructors carrying a String embed the
dynamic part of the message at that site. -/
inductive PErr where
  | emptyCanonicalForm
  | noSignedData
  | multipleSignedGraphs
  | notSigned
  | unknownSignatureType
  | nonceInvalid
  | domainInvalid
  | timestampOutOfRange
  | typeError (msg : String)
  | networkError (msg : String)
  | unknownKeyFormat
  | keyRevoked
  | keyUntrusted (msg : String)
  | signatureInvalid
  | unsupportedAlgorithm (alg : String)
  | decryptionFailed (detail : String)
  | hookError (msg : String)
  | errorType (msg : String)
  | invalidRegistrationResponse
  | invalidReceiptResponse
  | unknownReceiptFormat
  | unknownContractFormat
deriving Repr, DecidableEq

/-- Signature block attached to a signed document, mirroring the object
built by api.sign: type, creator, created, signatureValue, and the
optional nonce and domain fields.  After JSON-LD framing the absent
optional fields surface as null, embedded here as none. -/
structure SigBlock where
  type : String
  creator : String
  created : String
  signatureValue : String
  nonce : Option String := none
  domain : Option String := none
deriving Repr, DecidableEq

/-- Document model: the code only ever reads or writes the signature
field and the context values of a document; every other field is
carried opaquely as a key-value list.  This mirrors the JSON object
shape handled by api.sign and api.verify. -/
structure JDoc where
  context : List String := []
  signature : Option SigBlock := none
  fields : List (String × String) := []
deriving Repr, DecidableEq

/-- Embedding of api.CONTEXT_URL (= api.CONTEXT_V1_URL). -/
def CONTEXT_URL : String := "https://w3id.org/payswarm/v1"

/-- Embedding of jsonld.addValue(obj, key, v, allowDuplicate false) on a
list-valued property: the value is appended unless already present. -/
def addValue (xs : List String) (v : String) : List String :=
  if v ∈ xs then xs else xs ++ [v]

/-- Signing options of api.sign in the part_004 revision: key (private
PEM), keyId, date (already W3C formatted by the caller path embedded
here), optional domain and nonce. -/
structure SignOptions where
  key : String
  keyId : String
  date : String
  domain : Option String := none
  nonce : Option String := none
deriving Repr, DecidableEq

/-- Byte string fed to the RSA-SHA256 signer by api.sign (part_004
revision): update(nonce) when nonce is non-null, then update(date),
then update(normalized), then update("@" + domain) when domain is
non-null.  Successive updates concatenate into one signing input. -/
def signingInput (nonce : Option String) (date canon : String)
    (domain : Option String) : String :=
  nonce.getD "" ++ date ++ canon ++
    (match domain with
     | some d => "@" ++ d
     | none => "")

/-- Byte string fed to the RSA-SHA256 verifier by the verifySignature
step of api.verify (part_004 revision): update(nonce) when non-null,
then update(created), then update(normalized data), then
update(domain) when non-null.  The domain is fed WITHOUT any "@"
prefix at this site (source line: verifier.update(signature.domain)). -/
def verifyInputP4 (nonce : Option String) (created data : String)
    (domain : Option String) : String :=
  nonce.getD "" ++ created ++ data ++ domain.getD ""

/-- Embedding of api.sign from the part_004 revision.  The JSON-LD
canonicalizer nrm and the RSA-SHA256 primitive rsaSign (private key and
data to base64 signature) are external collaborators.  On success the
callers object is returned with the signature block attached and the
payswarm context URL added to its context values. -/
def signP4 (nrm : JDoc → String) (rsaSign : String → String → String)
    (obj : JDoc) (opts : SignOptions) : Except PErr JDoc :=
  let normalized := nrm obj
  if normalized.length = 0 then
    .error .emptyCanonicalForm
  else
    let sigVal := rsaSign opts.key
      (signingInput opts.nonce opts.date normalized opts.domain)
    let sig : SigBlock :=
      { type := "GraphSignature2012", creator := opts.keyId,
        created := opts.date, signatureValue := sigVal,
        nonce := opts.nonce, domain := opts.domain }
    .ok { obj with
          signature := some sig,
          context := addValue obj.context CONTEXT_URL }

/-- Embedding of api.sign from lib/payswarm-client.js.  This revision
has no domain support and mutates the document only by setting the
signature field (it does not touch the context). -/
def signClient (nrm : JDoc → String) (rsaSign : String → String → String)
    (obj : JDoc) (nonce : Option String) (dateTime publicKeyId privateKeyPem : String) :
    Except PErr JDoc :=
  let normalized := nrm obj
  if normalized.length = 0 then
    .error .emptyCanonicalForm
  else
    let sigVal := rsaSign privateKeyPem
      (signingInput nonce dateTime normalized none)
    let sig : SigBlock :=
      { type := "GraphSignature2012", creator := publicKeyId,
        created := dateTime, signatureValue := sigVal, nonce := nonce }
    .ok { obj with signature := some sig }

/-- JavaScript dynamic values relevant to the checkDate step: Date.parse
returns a plain number (milliseconds since the epoch, or NaN), while
only Date objects carry a getTime method. -/
inductive JsVal where
  | num (n : Int)
  | nan
  | date (t : Int)
deriving Repr, DecidableEq

/-- Embedding of Date.parse: yields a number (or NaN), never a Date
object.  The actual timestamp-string parser is an external collaborator
parse; none stands for an unparseable string (NaN). -/
def jsDateParse (parse : String → Option Int) (s : String) : JsVal :=
  match parse s with
  | some n => .num n
  | none => .nan

/-- Embedding of a .getTime() method call on a JavaScript value: defined
on Date objects only; on a number (the result of Date.parse) the
property lookup yields undefined and the call throws a TypeError. -/
def jsGetTime : JsVal → Except String Int
  | .date t => .ok t
  | .num _ => .error "TypeError: Date.parse(...).getTime is not a function"
  | .nan => .error "TypeError: Date.parse(...).getTime is not a function"

/-- Embedding of the checkDate step of api.verify in the part_004
revision: when checkTimestamp is set it computes
Date.parse(signature.created).getTime() inside a try block and compares
the result against the window now plus or minus maxTimestampDelta
seconds; a thrown exception is passed to the callback. -/
def checkDateP4 (checkTimestamp : Bool) (maxTimestampDelta : Int)
    (parse : String → Option Int) (now : Int) (sig : SigBlock) :
    Except PErr Unit :=
  if !checkTimestamp then
    .ok ()
  else
    let delta := maxTimestampDelta * 1000
    match jsGetTime (jsDateParse parse sig.created) with
    | .error m => .error (.typeError m)
    | .ok created =>
      if created < now - delta ∨ created > now + delta then
        .error .timestampOutOfRange
      else
        .ok ()

/-- Embedding of the checkDate step of api.verify in
lib/payswarm-client.js: the window is fixed at 15 minutes, the
timestamp is read with +Date.parse (NaN for unparseable strings, whose
comparisons are all false), and ONLY the out-of-range branch invokes
the callback; the in-range path falls off the end of the function
without calling back.  none embeds the callback never being invoked. -/
def checkDateClient (parse : String → Option Int) (now : Int)
    (sig : SigBlock) : Option PErr :=
  match parse sig.created with
  | none => none
  | some created =>
    if created < now - 15 * 60 * 1000 ∨ created > now + 15 * 60 * 1000 then
      some .timestampOutOfRange
    else
      none

/-- Public key record as consumed by the verifier: id, owner, PEM
public key, optional revocation timestamp. -/
structure PublicKeyRecord where
  id : String := ""
  owner : String := ""
  publicKeyPem : String := ""
  revoked : Option String := none
deriving Repr, DecidableEq

/-- Shape of a fetched public-key document before validation: the
publicKeyPem field may be absent. -/
structure FetchedKeyDoc where
  id : String := ""
  owner : String := ""
  publicKeyPem : Option String := none
  revoked : Option String := none
deriving Repr, DecidableEq

/-- Embedding of api.getPublicKey from the part_004 revision, applied
to the outcome of the underlying api.getJsonLd fetch: a fetch error is
passed through, a fetched document without a publicKeyPem field fails
with the unknown-format error, and otherwise the key document is
returned to the callback. -/
def getPublicKeyP4 (fetched : Except String FetchedKeyDoc) :
    Except PErr PublicKeyRecord :=
  match fetched with
  | .error e => .error (.networkError e)
  | .ok key =>
    match key.publicKeyPem with
    | none => .error .unknownKeyFormat
    | some pem =>
      .ok { id := key.id, owner := key.owner, publicKeyPem := pem,
            revoked := key.revoked }

/-- Embedding of api.getPublicKey from lib/payswarm-client.js, applied
to the outcome of the underlying api.getJsonLd fetch.  In this revision
the success path falls off the end of the fetch callback after the
publicKeyPem check without ever invoking the callers callback (the
callback(null, key) call is missing in the source); none embeds the
callback never being invoked. -/
def getPublicKeyClient (fetched : Except String FetchedKeyDoc) :
    Option (Except PErr PublicKeyRecord) :=
  match fetched with
  | .error e => some (.error (.networkError e))
  | .ok key =>
    match key.publicKeyPem with
    | none => some (.error .unknownKeyFormat)
    | some _ => none

/-- Trust and replay hooks of api.verify in the part_004 revision.  A
hook receives the (possibly null) value from the framed signature and
reports through its callback either an error or a validity boolean;
this is embedded as Except String Bool. -/
structure VerifyOptions where
  checkNonceHook : Option (Option String → Except String Bool) := none
  checkDomainHook : Option (Option String → Except String Bool) := none
  checkKeyHook : Option (PublicKeyRecord → Except String Bool) := none
  checkTimestamp : Bool := true
  maxTimestampDelta : Int := 15 * 60

/-- Embedding of the checkNonce step of api.verify (part_004 revision):
without an injected hook the shared callback is invoked with
(signature.nonce === null), so only nonce-free signatures pass; with a
hook, a hook error is passed through and a false verdict fails with the
nonce-invalid error. -/
def checkNonceStep (hook : Option (Option String → Except String Bool))
    (nonce : Option String) : Except PErr Unit :=
  match hook with
  | none =>
    if nonce = none then .ok () else .error .nonceInvalid
  | some p =>
    match p nonce with
    | .error e => .error (.hookError e)
    | .ok true => .ok ()
    | .ok false => .error .nonceInvalid

/-- Embedding of the checkDomain step of api.verify (part_004
revision), symmetric to the checkNonce step. -/
def checkDomainStep (hook : Option (Option String → Except String Bool))
    (domain : Option String) : Except PErr Unit :=
  match hook with
  | none =>
    if domain = none then .ok () else .error .domainInvalid
  | some p =>
    match p domain with
    | .error e => .error (.hookError e)
    | .ok true => .ok ()
    | .ok false => .error .domainInvalid

/-- Embedding of the checkKey step of api.verify (part_004 revision):
a revoked key fails first; then the injected checkKey hook (or the
built-in api.checkKey owner check, also embedded as a hook parameter
here) reports trust.  In the source the untrusted branch uses a raw
throw rather than the callback; the typeError constructor embeds that
thrown error. -/
def checkKeyStep (hook : PublicKeyRecord → Except String Bool)
    (key : PublicKeyRecord) : Except PErr Unit :=
  if key.revoked.isSome then
    .error .keyRevoked
  else
    match hook key with
    | .error e => .error (.hookError e)
    | .ok true => .ok ()
    | .ok false =>
      .error (.typeError
        "thrown: the message was not signed with a trusted key")

/-- Embedding of the verifySignature step of api.verify (part_004
revision): the revoked check has already run in checkKey; the RSA
verifier is updated with nonce, created, normalized data and the raw
domain, and a false verdict fails with the invalid-signature error. -/
def verifySignatureStepP4 (rsaVerify : String → String → String → Bool)
    (key : PublicKeyRecord) (sig : SigBlock) (data : String) :
    Except PErr Unit :=
  if rsaVerify key.publicKeyPem sig.signatureValue
      (verifyInputP4 sig.nonce sig.created data sig.domain) then
    .ok ()
  else
    .error .signatureInvalid

/-- External collaborators of api.verify: the JSON-LD framing (returning
the graph array) and canonicalization, the key fetch, the RSA verify
primitive (public PEM, base64 signature, data), the timestamp parser
and the current clock. -/
structure VerifyHooks where
  frame : JDoc → List JDoc
  nrm : JDoc → String
  fetchKey : String → Except String FetchedKeyDoc
  checkKeyDefault : PublicKeyRecord → Except String Bool
  rsaVerify : String → String → String → Bool
  parse : String → Option Int
  now : Int

/-- Embedding of api.verify from the part_004 revision.  The framing
step rejects zero or multiple signed graphs and a missing signature;
the per-signature checks then run in their async.auto registration
order (checkNonce, checkDomain, checkDate, getPublicKey, checkKey),
the signature is stripped from the framed copy and the stripped copy is
canonicalized, and finally the RSA signature is checked. -/
def verifyP4 (h : VerifyHooks) (opts : VerifyOptions) (obj : JDoc) :
    Except PErr Unit :=
  match h.frame obj with
  | [] => .error .noSignedData
  | _ :: _ :: _ => .error .multipleSignedGraphs
  | [graph] =>
    match graph.signature with
    | none => .error .notSigned
    | some sig => do
      checkNonceStep opts.checkNonceHook sig.nonce
      checkDomainStep opts.checkDomainHook sig.domain
      checkDateP4 opts.checkTimestamp opts.maxTimestampDelta
        h.parse h.now sig
      let key ← getPublicKeyP4 (h.fetchKey sig.creator)
      checkKeyStep (opts.checkKeyHook.getD h.checkKeyDefault) key
      let data := h.nrm { graph with signature := none }
      verifySignatureStepP4 h.rsaVerify key sig data

/-- Encrypted message as consumed by api.decrypt. -/
structure EncryptedMessage where
  cipherAlgorithm : String := ""
  cipherKey : String := ""
  initializationVector : String := ""
  cipherData : String := ""
deriving Repr, DecidableEq

/-- Cryptographic operations performed inside the try block of
api.decrypt, recorded as a trace so that statements of the form
"no RSA or AES operation is attempted" are expressible. -/
inductive CryptoOp where
  | createPrivateKey
  | rsaDecrypt (arg : String)
  | aesDecrypt (arg : String)
  | jsonParse
deriving Repr, DecidableEq

/-- External cryptographic collaborators of api.decrypt: private-key
construction (ursa.createPrivateKey), RSA-OAEP decryption of a base64
value under the constructed key, AES-128-CBC decryption, and JSON
parsing of the recovered plaintext.  Each may throw, embedded as an
Except error carrying the exception text. -/
structure DecryptOracles where
  createPrivateKey : String → Except String String
  rsaOaepDecrypt : String → String → Except String String
  aesCbcDecrypt : String → String → String → Except String String
  parseJson : String → Except String JDoc

/-- Failure message wrapper used by the catch block of api.decrypt: the
source builds the message by appending ex.toString() to a fixed text. -/
def decryptFailDetail (ex : String) : String :=
  "Failed to decrypt the encrypted message: " ++ ex

/-- Embedding of api.decrypt (lib/payswarm-client.js; the part_004
revision gates and wraps identically before its trailing verify call).
A cipherAlgorithm other than the single supported value fails before
the try block with the unsupported-algorithm error; inside the try
block the private key is constructed, the symmetric key and IV are
RSA-OAEP-unwrapped, the payload is AES-decrypted and the plaintext is
JSON-parsed, and any exception from any of these steps is caught by
the one catch block and wrapped by decryptFailDetail.  The second
component is the trace of operations performed. -/
def decrypt (o : DecryptOracles) (privateKey : String)
    (encrypted : EncryptedMessage) : (Except PErr JDoc) × List CryptoOp :=
  if encrypted.cipherAlgorithm ≠ "rsa-sha256-aes-128-cbc" then
    (.error (.unsupportedAlgorithm encrypted.cipherAlgorithm), [])
  else
    match o.createPrivateKey privateKey with
    | .error ex =>
      (.error (.decryptionFailed (decryptFailDetail ex)),
       [.createPrivateKey])
    | .ok pk =>
      match o.rsaOaepDecrypt pk encrypted.cipherKey with
      | .error ex =>
        (.error (.decryptionFailed (decryptFailDetail ex)),
         [.createPrivateKey, .rsaDecrypt encrypted.cipherKey])
      | .ok key =>
        match o.rsaOaepDecrypt pk encrypted.initializationVector with
        | .error ex =>
          (.error (.decryptionFailed (decryptFailDetail ex)),
           [.createPrivateKey, .rsaDecrypt encrypted.cipherKey,
            .rsaDecrypt encrypted.initializationVector])
        | .ok iv =>
          match o.aesCbcDecrypt key iv encrypted.cipherData with
          | .error ex =>
            (.error (.decryptionFailed (decryptFailDetail ex)),
             [.createPrivateKey, .rsaDecrypt encrypted.cipherKey,
              .rsaDecrypt encrypted.initializationVector,
              .aesDecrypt encrypted.cipherData])
          | .ok decrypted =>
            match o.parseJson decrypted with
            | .error ex =>
              (.error (.decryptionFailed (decryptFailDetail ex)),
               [.createPrivateKey, .rsaDecrypt encrypted.cipherKey,
                .rsaDecrypt encrypted.initializationVector,
                .aesDecrypt encrypted.cipherData, .jsonParse])
            | .ok msg =>
              (.ok msg,
               [.createPrivateKey, .rsaDecrypt encrypted.cipherKey,
                .rsaDecrypt encrypted.initializationVector,
                .aesDecrypt encrypted.cipherData, .jsonParse])

/-- Contract object carried by a receipt; the validate step tests the
presence of three fields with the JS in operator, embedded as Option
fields. -/
structure Contract where
  assetAcquirer : Option String := none
  asset : Option String := none
  license : Option String := none
deriving Repr, DecidableEq

/-- Decoded purchase response as consumed by api.getReceipt: its type
values, an errorMessage used when the Error type is present, and an
optional contract object. -/
structure ReceiptDoc where
  type : List String := []
  errorMessage : String := ""
  contract : Option Contract := none
deriving Repr, DecidableEq

/-- Outcome of a callback-style JS computation that can also throw out
of its async task: ok and err are callback invocations, thrown is an
uncaught exception (the callback is never invoked with it). -/
inductive JsOutcome (α : Type) where
  | ok (a : α)
  | err (e : PErr)
  | thrown (msg : String)
deriving Repr, DecidableEq

/-- Embedding of the checkMessage step shared by both getReceipt
revisions: an Error-typed response fails surfacing its errorMessage,
and a response without the Receipt type fails as an invalid purchase
response. -/
def checkReceiptMessage (receipt : ReceiptDoc) : Except PErr Unit :=
  if "Error" ∈ receipt.type then
    .error (.errorType receipt.errorMessage)
  else if "Receipt" ∉ receipt.type then
    .error .invalidReceiptResponse
  else
    .ok ()

/-- Embedding of the validate step of api.getReceipt in
lib/payswarm-client.js, applied to the decoded receipt.  The source
condition is the literal
if(not(contract in receipt or (typeof receipt.contract !== object))):
the first disjunct is contract-field presence and the second is true
exactly when the field is absent (typeof undefined), so the
unknown-receipt branch never fires; when the contract field is absent
the subsequent in operator on undefined throws a TypeError. -/
def validateReceiptClient (receipt : ReceiptDoc) : JsOutcome Unit :=
  let hasContractField := receipt.contract.isSome
  let typeofNotObject := receipt.contract.isNone
  if !(hasContractField || typeofNotObject) then
    .err .unknownReceiptFormat
  else
    match receipt.contract with
    | none =>
      .thrown
        "TypeError: Cannot use in operator to search for assetAcquirer in undefined"
    | some contract =>
      if contract.assetAcquirer.isNone || contract.asset.isNone ||
          contract.license.isNone then
        .err .unknownContractFormat
      else
        .ok ()

/-- Results object of the async.auto call in api.getReceipt (part_004
revision): its keys are decrypt and checkMessage. -/
structure GetReceiptResults where
  decrypt : ReceiptDoc
deriving Repr, DecidableEq

/-- JS property access results.decryot in the validate step of the
part_004 api.getReceipt: the results object holds no such key, so the
access yields undefined. -/
def GetReceiptResults.decryot (_ : GetReceiptResults) : Option ReceiptDoc :=
  none

/-- Embedding of the validate step of api.getReceipt in the part_004
revision: it reads the misspelled key results.decryot, so receipt is
undefined and the contract-presence test with the in operator throws a
TypeError for every response. -/
def validateReceiptP4 (results : GetReceiptResults) : JsOutcome Unit :=
  match results.decryot with
  | none =>
    .thrown
      "TypeError: Cannot use in operator to search for contract in undefined"
  | some receipt => validateReceiptClient receipt

/-- Embedding of api.getReceipt from lib/payswarm-client.js, applied to
the outcome of decoding (decrypt plus verify) the response: decode
errors pass through, then checkMessage, then validate, and on success
the decoded receipt is returned. -/
def getReceiptClient (decoded : Except PErr ReceiptDoc) :
    JsOutcome ReceiptDoc :=
  match decoded with
  | .error e => .err e
  | .ok receipt =>
    match checkReceiptMessage receipt with
    | .error e => .err e
    | .ok () =>
      match validateReceiptClient receipt with
      | .ok () => .ok receipt
      | .err e => .err e
      | .thrown m => .thrown m

/-- Embedding of api.getReceipt from the part_004 revision: decode
errors pass through, then checkMessage, then the validate step that
reads the misspelled results key; on success the final callback would
return results.decrypt. -/
def getReceiptP4 (decoded : Except PErr ReceiptDoc) :
    JsOutcome ReceiptDoc :=
  match decoded with
  | .error e => .err e
  | .ok receipt =>
    match checkReceiptMessage receipt with
    | .error e => .err e
    | .ok () =>
      match validateReceiptP4 { decrypt := receipt } with
      | .ok () => .ok receipt
      | .err e => .err e
      | .thrown m => .thrown m

/-- Decoded registration response as consumed by api.registerVendor and
by the keys tool: its type values, an errorMessage used when the Error
type is present, and the publicKey id, owner and destination fields. -/
structure PrefsDoc where
  type : List String := []
  errorMessage : String := ""
  publicKey : String := ""
  owner : String := ""
  destination : String := ""
deriving Repr, DecidableEq

/-- Embedding of the checkMessage step shared by both registerVendor
revisions: an Error-typed response fails surfacing its errorMessage,
and a response without the IdentityPreferences type fails as an
invalid registration response. -/
def checkPrefsMessage (prefs : PrefsDoc) : Except PErr Unit :=
  if "Error" ∈ prefs.type then
    .error (.errorType prefs.errorMessage)
  else if "IdentityPreferences" ∉ prefs.type then
    .error .invalidRegistrationResponse
  else
    .ok ()

/-- Embedding of api.registerVendor from lib/payswarm-client.js,
applied to the outcome of decoding the response: after checkMessage,
the storePublicKeyId hook persists the publicKey id from the decoded
preferences, and the final callback returns results.decode (the
decoded preferences). -/
def registerVendorClient (decoded : Except PErr PrefsDoc)
    (storePublicKeyId : String → Except String Unit) :
    Except PErr PrefsDoc :=
  match decoded with
  | .error e => .error e
  | .ok prefs =>
    match checkPrefsMessage prefs with
    | .error e => .error e
    | .ok () =>
      match storePublicKeyId prefs.publicKey with
      | .error e => .error (.hookError e)
      | .ok () => .ok prefs

/-- Results object of the async.auto call in api.registerVendor
(part_004 revision): its keys are decrypt and checkMessage. -/
structure RegisterVendorResultsP4 where
  decrypt : PrefsDoc
deriving Repr, DecidableEq

/-- JS property access results.decode in the final callback of the
part_004 api.registerVendor: the results object holds no such key
(the decode task name belongs to the other revision), so the access
yields undefined. -/
def RegisterVendorResultsP4.decode (_ : RegisterVendorResultsP4) :
    Option PrefsDoc :=
  none

/-- Embedding of api.registerVendor from the part_004 revision: decrypt
errors pass through, then checkMessage; the final callback returns
results.decode, which is undefined because the decrypt task is the one
that holds the decoded preferences. -/
def registerVendorP4 (decrypted : Except PErr PrefsDoc) :
    Except PErr (Option PrefsDoc) :=
  match decrypted with
  | .error e => .error e
  | .ok prefs =>
    match checkPrefsMessage prefs with
    | .error e => .error e
    | .ok () => .ok (RegisterVendorResultsP4.decode { decrypt := prefs })

/-- Configuration persisted by the keys tool: the public key id, the
key pair, the owner identity and the source (funding) account. -/
structure KeysConfig where
  publicKeyId : String := ""
  publicKeyPem : String := ""
  privateKeyPem : String := ""
  owner : String := ""
  source : String := ""
deriving Repr, DecidableEq

/-- Embedding of the updateConfig step of the keys tool (register flow):
the decoded message fields publicKey, owner and destination are written
into the configuration as the public key id, the owner and the source
account. -/
def updateConfig (config : KeysConfig) (msg : PrefsDoc) : KeysConfig :=
  { config with
    publicKeyId := msg.publicKey,
    owner := msg.owner,
    source := msg.destination }

/-- State-passing embedding of api.verify as it affects the callers
document: jsonld.frame returns fresh objects, the statement
delete result.signature acts on that framed copy, and no statement of
api.verify assigns into obj, so the callers document after the call is
the document that was passed in; the pair returns the verification
outcome together with that document. -/
def verifyP4Doc (h : VerifyHooks) (opts : VerifyOptions) (obj : JDoc) :
    (Except PErr Unit) × JDoc :=
  (verifyP4 h opts obj, obj)

/-- Text of the TypeError raised by calling getTime on the number
returned by Date.parse. -/
def dateGetTimeTypeError : String :=
  "TypeError: Date.parse(...).getTime is not a function"

/-- Helper: with timestamp checking enabled, the part_004 checkDate step
always fails with the getTime TypeError, because Date.parse returns a
number and the code calls getTime on it. -/
lemma checkDateP4_true (delta : Int) (parse : String → Option Int)
    (now : Int) (sig : SigBlock) :
    checkDateP4 true delta parse now sig =
      Except.error (PErr.typeError dateGetTimeTypeError) := by
  cases hp : parse sig.created <;>
    simp [checkDateP4, jsDateParse, jsGetTime, hp, dateGetTimeTypeError]

/-- C3: the claim states that with timestamp checking enabled, verify
fails TimestampOutOfRange exactly when created lies outside the window
now plus or minus delta and otherwise the timestamp step passes, with a
created of now minus 20 minutes failing under the default window and
succeeding under a 30 minute window.  The code contradicts this: in the
part_004 revision the step computes Date.parse(created).getTime(),
which throws a TypeError for every input, so the step fails with that
TypeError regardless of the window; and in the lib revision the
in-range path never invokes its callback at all. -/
theorem checkDate_always_throws_typeError :
    (∀ (delta : Int) (parse : String → Option Int) (now : Int)
       (sig : SigBlock),
       checkDateP4 true delta parse now sig =
         Except.error (PErr.typeError dateGetTimeTypeError)) ∧
    (∀ (parse : String → Option Int) (now t : Int) (sig : SigBlock),
       parse sig.created = some t →
       now - 900000 ≤ t → t ≤ now + 900000 →
       checkDateClient parse now sig = none) := by
  refine ⟨checkDateP4_true, ?_⟩
  intro parse now t sig hp h1 h2
  simp only [checkDateClient, hp]
  split
  · rename_i hlt
    exfalso
    omega
  · rfl

/-- Witness for C3: a concrete in-window timestamp on which the
part_004 step throws the TypeError and the lib step never invokes its
callback. -/
theorem checkDate_always_throws_typeError_witness :
    checkDateP4 true 1800 (fun _ => some 0) 0
      { type := "GraphSignature2012", creator := "k", created := "c",
        signatureValue := "s" } =
      Except.error (PErr.typeError dateGetTimeTypeError) ∧
    checkDateClient (fun _ => some 0) 0
      { type := "GraphSignature2012", creator := "k", created := "c",
        signatureValue := "s" } = none := by
  exact ⟨checkDate_always_throws_typeError.1 1800 (fun _ => some 0) 0 _,
    checkDate_always_throws_typeError.2 (fun _ => some 0) 0 0 _ rfl
      (by norm_num) (by norm_num)⟩

/-- C2: the claim states that sign concatenates nonce, created,
canonical form and the string "@" followed by the domain, and that
verify rebuilds exactly the same concatenation including the "@"
prefix.  The code contradicts the second half: the verifySignature
step of the part_004 revision feeds the raw domain without the "@"
prefix, so for every domain-bearing signature the rebuilt input
differs from the signing input (the two agree only when no domain is
present). -/
theorem verify_input_drops_domain_marker :
    (∀ (nonce : Option String) (created data : String),
       verifyInputP4 nonce created data none =
         signingInput nonce created data none) ∧
    (∀ (nonce : Option String) (created data dom : String),
       verifyInputP4 nonce created data (some dom) ≠
         signingInput nonce created data (some dom)) := by
  constructor
  · intro nonce created data
    simp [verifyInputP4, signingInput]
  · intro nonce created data dom h
    have hl := congrArg String.length h
    simp only [verifyInputP4, signingInput, String.length_append,
      Option.getD_some] at hl
    have hone : ("@" : String).length = 1 := rfl
    omega

/-- Witness for C2: at the domain example.com the signing input carries
the "@" marker and the rebuilt verification input does not. -/
theorem verify_input_drops_domain_marker_witness :
    verifyInputP4 none "D" "C" (some "example.com") ≠
      signingInput none "D" "C" (some "example.com") ∧
    verifyInputP4 none "D" "C" none = signingInput none "D" "C" none := by
  exact ⟨verify_input_drops_domain_marker.2 none "D" "C" "example.com",
    verify_input_drops_domain_marker.1 none "D" "C"⟩

/-- C5: for every EncryptedMessage whose cipherAlgorithm is not the one
supported value, decrypt fails immediately with the
unsupported-algorithm error carrying that algorithm, the operation
trace is empty (no private-key construction, RSA unwrap, AES
decryption or JSON parse is attempted), and the outcome is therefore
independent of every cryptographic collaborator. -/
theorem decrypt_unknown_algorithm_immediate :
    ∀ (o : DecryptOracles) (pk : String) (em : EncryptedMessage),
      em.cipherAlgorithm ≠ "rsa-sha256-aes-128-cbc" →
      decrypt o pk em =
        (Except.error (PErr.unsupportedAlgorithm em.cipherAlgorithm), []) := by
  intro o pk em h
  simp [decrypt, h]

/-- Witness for C5: a concrete message with cipherAlgorithm unknown
fails with the unsupported-algorithm error and an empty trace. -/
theorem decrypt_unknown_algorithm_immediate_witness :
    decrypt
      { createPrivateKey := fun _ => .ok "pk",
        rsaOaepDecrypt := fun _ _ => .ok "k",
        aesCbcDecrypt := fun _ _ _ => .ok "d",
        parseJson := fun _ => .ok {} }
      "PRIV"
      { cipherAlgorithm := "unknown", cipherKey := "ck",
        initializationVector := "iv", cipherData := "cd" } =
      (Except.error (PErr.unsupportedAlgorithm "unknown"), []) := by
  exact decrypt_unknown_algorithm_immediate _ "PRIV" _ (by decide)

/-- Helper: with timestamp checking enabled, the part_004 verify
pipeline can never reach a success, because the checkDate step always
fails with the getTime TypeError; whichever of the earlier framing,
nonce or domain steps fails first, the overall outcome is an error. -/
lemma verifyP4_never_ok (h : VerifyHooks) (opts : VerifyOptions)
    (obj : JDoc) (hts : opts.checkTimestamp = true) :
    ∃ e, verifyP4 h opts obj = Except.error e := by
  unfold verifyP4
  cases hf : h.frame obj with
  | nil => exact ⟨_, rfl⟩
  | cons g rest =>
    cases rest with
    | cons g2 rest2 => exact ⟨_, rfl⟩
    | nil =>
      cases hsig : g.signature with
      | none => exact ⟨PErr.notSigned, by simp [hsig]⟩
      | some sig =>
        cases hn : checkNonceStep opts.checkNonceHook sig.nonce with
        | error e =>
          exact ⟨e, by simp only [hsig, hn]; rfl⟩
        | ok u =>
          cases hd : checkDomainStep opts.checkDomainHook sig.domain with
          | error e =>
            exact ⟨e, by simp only [hsig, hn, hd]; rfl⟩
          | ok v =>
            refine ⟨PErr.typeError dateGetTimeTypeError, ?_⟩
            simp only [hsig, hn, hd, hts, checkDateP4_true]
            rfl

/-- C1: the claim states that signing a document with a valid key pair
and verifying the signed result under an accepting trust policy, a
non-revoked resolved key and a fresh signature completes with success.
The code contradicts this: under the default options (timestamp
checking enabled) the part_004 verify never succeeds on any input,
because its checkDate step calls getTime on the number returned by
Date.parse and therefore always throws, whatever the canonicalizer,
key resolver, trust hooks, RSA primitive, clock and window are. -/
theorem verify_of_sign_fails_under_defaults :
    ∀ (nrm : JDoc → String) (rsaSign : String → String → String)
      (h : VerifyHooks) (opts : VerifyOptions) (obj sd : JDoc)
      (sopts : SignOptions),
      signP4 nrm rsaSign obj sopts = Except.ok sd →
      opts.checkTimestamp = true →
      ∃ e, verifyP4 h opts sd = Except.error e := by
  intro nrm rsaSign h opts obj sd sopts hsign hts
  exact verifyP4_never_ok h opts sd hts

/-- Witness for C1: a concrete document signed with concrete
collaborators, an accepting trust hook, a non-revoked key and a
matching RSA pair still verifies to an error under the default
options. -/
theorem verify_of_sign_fails_under_defaults_witness :
    signP4 (fun _ => "canon") (fun _ data => data)
      { fields := [("id", "urn:test")] }
      { key := "PRIV", keyId := "https://example.com/keys/1",
        date := "2014-01-01T00:00:00Z" } =
      Except.ok
        { context := ["https://w3id.org/payswarm/v1"],
          signature := some
            { type := "GraphSignature2012",
              creator := "https://example.com/keys/1",
              created := "2014-01-01T00:00:00Z",
              signatureValue := "2014-01-01T00:00:00Zcanon" },
          fields := [("id", "urn:test")] } ∧
    ({} : VerifyOptions).checkTimestamp = true ∧
    ∃ e,
      verifyP4
        { frame := fun d => [d], nrm := fun _ => "canon",
          fetchKey := fun _ =>
            .ok { owner := "https://example.com/i/owner",
                  publicKeyPem := some "PUB" },
          checkKeyDefault := fun _ => .ok true,
          rsaVerify := fun _ _ _ => true,
          parse := fun _ => some 0, now := 0 }
        {}
        { context := ["https://w3id.org/payswarm/v1"],
          signature := some
            { type := "GraphSignature2012",
              creator := "https://example.com/keys/1",
              created := "2014-01-01T00:00:00Z",
              signatureValue := "2014-01-01T00:00:00Zcanon" },
          fields := [("id", "urn:test")] } = Except.error e := by
  refine ⟨rfl, rfl, ?_⟩
  exact verify_of_sign_fails_under_defaults (fun _ => "canon")
    (fun _ data => data) _ {} { fields := [("id", "urn:test")] } _
    { key := "PRIV", keyId := "https://example.com/keys/1",
      date := "2014-01-01T00:00:00Z" } rfl rfl

/-- C4: without an injected checkNonce hook the nonce step accepts
exactly the signatures that carry no nonce field: a nonce-bearing
signature fails the whole verification with the nonce-invalid error
and a nonce-free one passes the step; with a hook, the step succeeds
exactly when the hook reports valid, fails with the nonce-invalid
error on an invalid verdict, and propagates a hook error. -/
theorem checkNonce_strict_default :
    (∀ n : Option String,
       (checkNonceStep none n = Except.ok () ↔ n = none)) ∧
    (∀ x : String,
       checkNonceStep none (some x) = Except.error PErr.nonceInvalid) ∧
    (∀ (p : Option String → Except String Bool) (n : Option String),
       (checkNonceStep (some p) n = Except.ok () ↔ p n = Except.ok true) ∧
       (p n = Except.ok false →
         checkNonceStep (some p) n = Except.error PErr.nonceInvalid) ∧
       (∀ e, p n = Except.error e →
         checkNonceStep (some p) n = Except.error (PErr.hookError e))) ∧
    (∀ (h : VerifyHooks) (opts : VerifyOptions) (obj g : JDoc)
       (sig : SigBlock) (x : String),
       h.frame obj = [g] → g.signature = some sig →
       sig.nonce = some x → opts.checkNonceHook = none →
       verifyP4 h opts obj = Except.error PErr.nonceInvalid) := by
  refine ⟨?_, ?_, ?_, ?_⟩
  · intro n
    cases n <;> simp [checkNonceStep]
  · intro x
    simp [checkNonceStep]
  · intro p n
    refine ⟨?_, ?_, ?_⟩
    · cases hp : p n with
      | error e => simp [checkNonceStep, hp]
      | ok b => cases b <;> simp [checkNonceStep, hp]
    · intro hp
      simp [checkNonceStep, hp]
    · intro e hp
      simp [checkNonceStep, hp]
  · intro h opts obj g sig x hf hsig hn hhook
    unfold verifyP4
    rw [hf]
    simp only [hsig, hn, hhook, bind, Except.bind]
    simp [checkNonceStep]

/-- Witness for C4: concrete instances of the four conjuncts, with a
nonce-bearing signature failing a concrete pipeline with the
nonce-invalid error. -/
theorem checkNonce_strict_default_witness :
    (checkNonceStep none (none : Option String) = Except.ok () ↔
      (none : Option String) = none) ∧
    checkNonceStep none (some "n1") = Except.error PErr.nonceInvalid ∧
    (checkNonceStep (some (fun _ => Except.ok false)) (some "n1") =
      Except.error PErr.nonceInvalid) ∧
    verifyP4
      { frame := fun d => [d], nrm := fun _ => "canon",
        fetchKey := fun _ => .ok { publicKeyPem := some "PUB" },
        checkKeyDefault := fun _ => .ok true,
        rsaVerify := fun _ _ _ => true,
        parse := fun _ => some 0, now := 0 }
      {}
      { signature := some
          { type := "GraphSignature2012", creator := "k", created := "c",
            signatureValue := "s", nonce := some "n1" } } =
      Except.error PErr.nonceInvalid := by
  refine ⟨checkNonce_strict_default.1 none, checkNonce_strict_default.2.1 "n1",
    checkNonce_strict_default.2.2.1 (fun _ => Except.ok false)
      (some "n1") |>.2.1 rfl, ?_⟩
  exact checkNonce_strict_default.2.2.2
    _ {} _ _ _ "n1" rfl rfl rfl rfl

/-- C7: the claim states that resolving a public key returns the
fetched record when the fetched document carries a publicKeyPem field,
fails with the unknown-format error when that field is absent, and
fails with the underlying transport error when the fetch errs.  The
part_004 revision satisfies all three cases, but in the
lib/payswarm-client.js revision the success path returns without ever
invoking the callback (the callback(null, key) call is missing), so
the record is never returned there. -/
theorem getPublicKey_success_callback_missing :
    (∀ (key : FetchedKeyDoc) (pem : String),
       key.publicKeyPem = some pem →
       getPublicKeyClient (Except.ok key) = none ∧
       getPublicKeyP4 (Except.ok key) =
         Except.ok { id := key.id, owner := key.owner,
                     publicKeyPem := pem, revoked := key.revoked }) ∧
    (∀ key : FetchedKeyDoc,
       key.publicKeyPem = none →
       getPublicKeyClient (Except.ok key) =
         some (Except.error PErr.unknownKeyFormat) ∧
       getPublicKeyP4 (Except.ok key) =
         Except.error PErr.unknownKeyFormat) ∧
    (∀ e : String,
       getPublicKeyClient (Except.error e) =
         some (Except.error (PErr.networkError e)) ∧
       getPublicKeyP4 (Except.error e) =
         Except.error (PErr.networkError e)) := by
  refine ⟨?_, ?_, ?_⟩
  · intro key pem hp
    simp [getPublicKeyClient, getPublicKeyP4, hp]
  · intro key hp
    simp [getPublicKeyClient, getPublicKeyP4, hp]
  · intro e
    simp [getPublicKeyClient, getPublicKeyP4]

/-- Witness for C7: a concrete fetched key document carrying a PEM key
is dropped by the lib revision and returned by the part_004 revision. -/
theorem getPublicKey_success_callback_missing_witness :
    getPublicKeyClient
      (Except.ok { id := "https://example.com/keys/1",
                   owner := "https://example.com/i/owner",
                   publicKeyPem := some "PUBPEM" }) = none ∧
    getPublicKeyP4
      (Except.ok { id := "https://example.com/keys/1",
                   owner := "https://example.com/i/owner",
                   publicKeyPem := some "PUBPEM" }) =
      Except.ok { id := "https://example.com/keys/1",
                  owner := "https://example.com/i/owner",
                  publicKeyPem := "PUBPEM" } := by
  exact getPublicKey_success_callback_missing.1
    { id := "https://example.com/keys/1",
      owner := "https://example.com/i/owner",
      publicKeyPem := some "PUBPEM" } "PUBPEM" rfl

/-- C6: the claim states that decryption failures at different internal
steps surface the same single generic failure with no detail that
distinguishes the failing step.  The code contradicts this: the one
catch block appends ex.toString() to its message, so a failure of the
RSA key unwrap and a failure of the JSON parse of the plaintext
surface as different error values on the same encrypted message. -/
theorem decrypt_failure_detail_differs :
    (decrypt
      { createPrivateKey := fun _ => .ok "pk",
        rsaOaepDecrypt := fun _ _ => .error "RSA OAEP decoding error",
        aesCbcDecrypt := fun _ _ _ => .ok "",
        parseJson := fun _ => .ok {} }
      "PRIV"
      { cipherAlgorithm := "rsa-sha256-aes-128-cbc", cipherKey := "ck",
        initializationVector := "iv", cipherData := "cd" }).1 ≠
    (decrypt
      { createPrivateKey := fun _ => .ok "pk",
        rsaOaepDecrypt := fun _ _ => .ok "k",
        aesCbcDecrypt := fun _ _ _ => .ok "notjson",
        parseJson := fun _ => .error "SyntaxError: Unexpected token n" }
      "PRIV"
      { cipherAlgorithm := "rsa-sha256-aes-128-cbc", cipherKey := "ck",
        initializationVector := "iv", cipherData := "cd" }).1 := by
  intro h
  simp [decrypt, decryptFailDetail] at h

/-- C6 amended: every internal failure of decrypt on a message with the
supported cipherAlgorithm is surfaced through the one generic
decryption-failed wrapper (never a step-specific error kind), but the
wrapped message appends the underlying exception text, which can
distinguish the failing step. -/
theorem decrypt_failures_share_generic_kind :
    ∀ (o : DecryptOracles) (pk : String) (em : EncryptedMessage),
      em.cipherAlgorithm = "rsa-sha256-aes-128-cbc" →
      (∃ msg, (decrypt o pk em).1 = Except.ok msg) ∨
      (∃ ex, (decrypt o pk em).1 =
        Except.error (PErr.decryptionFailed (decryptFailDetail ex))) := by
  intro o pk em h
  unfold decrypt
  rw [if_neg (by simp [h])]
  cases h1 : o.createPrivateKey pk with
  | error ex => exact .inr ⟨ex, rfl⟩
  | ok pk2 =>
    dsimp only
    cases h2 : o.rsaOaepDecrypt pk2 em.cipherKey with
    | error ex => exact .inr ⟨ex, rfl⟩
    | ok key =>
      dsimp only
      cases h3 : o.rsaOaepDecrypt pk2 em.initializationVector with
      | error ex => exact .inr ⟨ex, rfl⟩
      | ok iv =>
        dsimp only
        cases h4 : o.aesCbcDecrypt key iv em.cipherData with
        | error ex => exact .inr ⟨ex, rfl⟩
        | ok decrypted =>
          dsimp only
          cases h5 : o.parseJson decrypted with
          | error ex => exact .inr ⟨ex, rfl⟩
          | ok msg => exact .inl ⟨msg, rfl⟩

/-- Witness for the amended C6: a concrete supported-algorithm message
failing at the AES step surfaces through the generic wrapper. -/
theorem decrypt_failures_share_generic_kind_witness :
    (∃ msg,
      (decrypt
        { createPrivateKey := fun _ => .ok "pk",
          rsaOaepDecrypt := fun _ _ => .ok "k",
          aesCbcDecrypt := fun _ _ _ => .error "bad decrypt",
          parseJson := fun _ => .ok {} }
        "PRIV"
        { cipherAlgorithm := "rsa-sha256-aes-128-cbc", cipherKey := "ck",
          initializationVector := "iv", cipherData := "cd" }).1 =
        Except.ok msg) ∨
    (∃ ex,
      (decrypt
        { createPrivateKey := fun _ => .ok "pk",
          rsaOaepDecrypt := fun _ _ => .ok "k",
          aesCbcDecrypt := fun _ _ _ => .error "bad decrypt",
          parseJson := fun _ => .ok {} }
        "PRIV"
        { cipherAlgorithm := "rsa-sha256-aes-128-cbc", cipherKey := "ck",
          initializationVector := "iv", cipherData := "cd" }).1 =
        Except.error (PErr.decryptionFailed (decryptFailDetail ex))) := by
  exact decrypt_failures_share_generic_kind _ "PRIV" _ rfl

/-- C8: the claim states that getReceipt succeeds exactly on
Receipt-typed responses whose contract carries assetAcquirer, asset
and license, failing otherwise with an invalid-receipt error and
returning the decoded receipt on success.  The code contradicts this:
the part_004 revision reads the misspelled key results.decryot in its
validate step and therefore throws a TypeError on every response that
reaches validation, and in the lib revision the inverted
contract-presence condition makes the unknown-receipt branch
unreachable, so a Receipt-typed response without a contract throws a
TypeError instead of failing with the invalid-receipt error (the lib
success and missing-contract-field paths otherwise match the claim). -/
theorem getReceipt_validate_breaks :
    (∀ r : ReceiptDoc,
       "Receipt" ∈ r.type → "Error" ∉ r.type →
       getReceiptP4 (Except.ok r) =
         JsOutcome.thrown
           "TypeError: Cannot use in operator to search for contract in undefined") ∧
    (∀ r : ReceiptDoc,
       "Receipt" ∈ r.type → "Error" ∉ r.type → r.contract = none →
       getReceiptClient (Except.ok r) =
         JsOutcome.thrown
           "TypeError: Cannot use in operator to search for assetAcquirer in undefined") ∧
    (∀ r : ReceiptDoc,
       validateReceiptClient r ≠ JsOutcome.err PErr.unknownReceiptFormat) ∧
    (∀ (r : ReceiptDoc) (c : Contract),
       "Receipt" ∈ r.type → "Error" ∉ r.type → r.contract = some c →
       c.assetAcquirer.isSome → c.asset.isSome → c.license.isSome →
       getReceiptClient (Except.ok r) = JsOutcome.ok r) := by
  refine ⟨?_, ?_, ?_, ?_⟩
  · intro r hrec herr
    simp [getReceiptP4, checkReceiptMessage, validateReceiptP4,
      GetReceiptResults.decryot, hrec, herr]
  · intro r hrec herr hc
    simp [getReceiptClient, checkReceiptMessage, validateReceiptClient,
      hrec, herr, hc]
  · intro r h
    cases hc : r.contract with
    | none => simp [validateReceiptClient, hc] at h
    | some c =>
      simp [validateReceiptClient, hc] at h
      by_cases hcond :
          ((c.assetAcquirer = none ∨ c.asset = none) ∨ c.license = none)
      · rw [if_pos hcond] at h
        exact absurd h (by simp)
      · rw [if_neg hcond] at h
        exact absurd h (by simp)
  · intro r c hrec herr hc h1 h2 h3
    rw [Option.isSome_iff_ne_none] at h1 h2 h3
    simp [getReceiptClient, checkReceiptMessage, validateReceiptClient,
      hrec, herr, hc, h1, h2, h3]

/-- Witness for C8: a fully well-formed Receipt response still makes
the part_004 revision throw, a contract-less Receipt makes the lib
revision throw, and a fully well-formed Receipt succeeds in the lib
revision. -/
theorem getReceipt_validate_breaks_witness :
    getReceiptP4
      (Except.ok
        { type := ["Receipt"],
          contract := some
            { assetAcquirer := some "a", asset := some "b",
              license := some "c" } }) =
      JsOutcome.thrown
        "TypeError: Cannot use in operator to search for contract in undefined" ∧
    getReceiptClient (Except.ok { type := ["Receipt"] }) =
      JsOutcome.thrown
        "TypeError: Cannot use in operator to search for assetAcquirer in undefined" ∧
    getReceiptClient
      (Except.ok
        { type := ["Receipt"],
          contract := some
            { assetAcquirer := some "a", asset := some "b",
              license := some "c" } }) =
      JsOutcome.ok
        { type := ["Receipt"],
          contract := some
            { assetAcquirer := some "a", asset := some "b",
              license := some "c" } } := by
  refine ⟨getReceipt_validate_breaks.1 _ (by decide) (by decide),
    getReceipt_validate_breaks.2.1 _ (by decide) (by decide) rfl,
    getReceipt_validate_breaks.2.2.2 _
      { assetAcquirer := some "a", asset := some "b", license := some "c" }
      (by decide) (by decide) rfl rfl rfl rfl⟩

/-- C9: the claim states that the registration response decoding step
rejects Error-typed responses surfacing their errorMessage, rejects
responses without the IdentityPreferences type, persists the publicKey
id, owner and destination into the configuration, and yields the
decoded preferences to the caller.  The rejection and persistence
parts hold (the keys tool updateConfig writes all three fields), and
the lib revision yields the decoded preferences; but the part_004
revision returns results.decode while its async.auto tasks are named
decrypt and checkMessage, so it yields undefined instead of the
decoded preferences on every successful registration. -/
theorem registerVendor_yields_undefined_prefs :
    (∀ prefs : PrefsDoc,
       "Error" ∈ prefs.type →
       registerVendorP4 (Except.ok prefs) =
         Except.error (PErr.errorType prefs.errorMessage) ∧
       (∀ st, registerVendorClient (Except.ok prefs) st =
         Except.error (PErr.errorType prefs.errorMessage))) ∧
    (∀ prefs : PrefsDoc,
       "Error" ∉ prefs.type → "IdentityPreferences" ∉ prefs.type →
       registerVendorP4 (Except.ok prefs) =
         Except.error PErr.invalidRegistrationResponse) ∧
    (∀ (c : KeysConfig) (m : PrefsDoc),
       (updateConfig c m).publicKeyId = m.publicKey ∧
       (updateConfig c m).owner = m.owner ∧
       (updateConfig c m).source = m.destination) ∧
    (∀ prefs : PrefsDoc,
       "Error" ∉ prefs.type → "IdentityPreferences" ∈ prefs.type →
       registerVendorP4 (Except.ok prefs) = Except.ok none ∧
       (∀ st, st prefs.publicKey = Except.ok () →
         registerVendorClient (Except.ok prefs) st = Except.ok prefs)) := by
  refine ⟨?_, ?_, ?_, ?_⟩
  · intro prefs h
    constructor
    · simp [registerVendorP4, checkPrefsMessage, h]
    · intro st
      simp [registerVendorClient, checkPrefsMessage, h]
  · intro prefs h1 h2
    simp [registerVendorP4, checkPrefsMessage, h1, h2]
  · intro c m
    exact ⟨rfl, rfl, rfl⟩
  · intro prefs h1 h2
    constructor
    · simp [registerVendorP4, checkPrefsMessage,
        RegisterVendorResultsP4.decode, h1, h2]
    · intro st hst
      simp [registerVendorClient, checkPrefsMessage, h1, h2, hst]

/-- Witness for C9: a concrete IdentityPreferences response is decoded,
its three fields are persisted by updateConfig, the lib revision yields
the preferences, and the part_004 revision yields undefined. -/
theorem registerVendor_yields_undefined_prefs_witness :
    registerVendorP4
      (Except.ok
        { type := ["IdentityPreferences"], publicKey := "https://p/k/1",
          owner := "https://p/i/o", destination := "https://p/a/1" }) =
      Except.ok none ∧
    registerVendorClient
      (Except.ok
        { type := ["IdentityPreferences"], publicKey := "https://p/k/1",
          owner := "https://p/i/o", destination := "https://p/a/1" })
      (fun _ => Except.ok ()) =
      Except.ok
        { type := ["IdentityPreferences"], publicKey := "https://p/k/1",
          owner := "https://p/i/o", destination := "https://p/a/1" } ∧
    (updateConfig {}
      { type := ["IdentityPreferences"], publicKey := "https://p/k/1",
        owner := "https://p/i/o", destination := "https://p/a/1" }).owner =
      "https://p/i/o" := by
  refine ⟨(registerVendor_yields_undefined_prefs.2.2.2 _
      (by decide) (by decide)).1,
    (registerVendor_yields_undefined_prefs.2.2.2 _
      (by decide) (by decide)).2 (fun _ => Except.ok ()) rfl,
    (registerVendor_yields_undefined_prefs.2.2.1 {} _).2.1⟩

/-- C10 counterexample: the claim states that sign mutates the callers
document only by attaching the signature field.  On a document whose
context does not carry the payswarm context URL, the part_004 sign
also rewrites the context (jsonld.addValue on the context), so a
non-signature part of the document changes. -/
theorem signP4_context_mutation_counterexample :
    signP4 (fun _ => "canon") (fun _ _ => "SIG")
      { context := [], signature := none, fields := [("id", "urn:asset")] }
      { key := "PRIV", keyId := "KID", date := "D" } =
      Except.ok
        { context := ["https://w3id.org/payswarm/v1"],
          signature := some
            { type := "GraphSignature2012", creator := "KID",
              created := "D", signatureValue := "SIG" },
          fields := [("id", "urn:asset")] } ∧
    (["https://w3id.org/payswarm/v1"] : List String) ≠
      ({ context := [], signature := none,
         fields := [("id", "urn:asset")] } : JDoc).context := by
  exact ⟨rfl, by decide⟩

/-- C10 amended: the part_004 sign mutates the callers document by
attaching the signature field and by adding the payswarm context URL
to its context when absent (the context is untouched when the URL is
already present), leaving all other fields unchanged; the lib revision
sign changes only the signature field; and verify never mutates the
callers document. -/
theorem sign_frame_effect :
    (∀ (nrm : JDoc → String) (rsaSign : String → String → String)
       (obj sd : JDoc) (opts : SignOptions),
       signP4 nrm rsaSign obj opts = Except.ok sd →
       sd.fields = obj.fields ∧
       sd.context = addValue obj.context CONTEXT_URL ∧
       sd.signature = some
         { type := "GraphSignature2012", creator := opts.keyId,
           created := opts.date,
           signatureValue := rsaSign opts.key
             (signingInput opts.nonce opts.date (nrm obj) opts.domain),
           nonce := opts.nonce, domain := opts.domain } ∧
       (CONTEXT_URL ∈ obj.context → sd.context = obj.context)) ∧
    (∀ (nrm : JDoc → String) (rsaSign : String → String → String)
       (obj sd : JDoc) (nonce : Option String) (dt pk sk : String),
       signClient nrm rsaSign obj nonce dt pk sk = Except.ok sd →
       sd.fields = obj.fields ∧ sd.context = obj.context ∧
       sd.signature = some
         { type := "GraphSignature2012", creator := pk, created := dt,
           signatureValue := rsaSign sk
             (signingInput nonce dt (nrm obj) none),
           nonce := nonce }) ∧
    (∀ (h : VerifyHooks) (opts : VerifyOptions) (obj : JDoc),
       (verifyP4Doc h opts obj).2 = obj) := by
  refine ⟨?_, ?_, ?_⟩
  · intro nrm rsaSign obj sd opts hsig
    simp only [signP4] at hsig
    split at hsig
    · exact absurd hsig (by simp)
    · simp only [Except.ok.injEq] at hsig
      subst hsig
      refine ⟨rfl, rfl, rfl, ?_⟩
      intro hmem
      simp [addValue, hmem]
  · intro nrm rsaSign obj sd nonce dt pk sk hsig
    simp only [signClient] at hsig
    split at hsig
    · exact absurd hsig (by simp)
    · simp only [Except.ok.injEq] at hsig
      subst hsig
      exact ⟨rfl, rfl, rfl⟩
  · intro h opts obj
    rfl

/-- Witness for the amended C10: on a concrete document that already
carries the payswarm context URL, signing leaves the context equal to
the original context. -/
theorem sign_frame_effect_witness :
    ({ context := ["https://w3id.org/payswarm/v1"],
       signature := some
         { type := "GraphSignature2012", creator := "KID2",
           created := "D2", signatureValue := "SIG2" },
       fields := [("k", "v")] } : JDoc).context =
      ({ context := ["https://w3id.org/payswarm/v1"], signature := none,
         fields := [("k", "v")] } : JDoc).context := by
  exact (sign_frame_effect.1 (fun _ => "canon") (fun _ _ => "SIG2")
    { context := ["https://w3id.org/payswarm/v1"], signature := none,
      fields := [("k", "v")] }
    { context := ["https://w3id.org/payswarm/v1"],
      signature := some
        { type := "GraphSignature2012", creator := "KID2",
          created := "D2", signatureValue := "SIG2" },
      fields := [("k", "v")] }
    { key := "PRIV", keyId := "KID2", date := "D2" } rfl).2.2.2
    (by decide)

end Payswarm
